import Mathlib

/-!
Verification of the shopping-cart discount/redemption subsystem and the
user-API account helpers of this repository.

Money is represented in integer cents. Database rows become lists of
structures; each HTTP endpoint becomes a pure function from request data
and state to a response (and, where it mutates, a new state). External
collaborators (hashing, file storage, the account-creation backend) are
parameters of the embedded functions.
-/

namespace Shoppingcart

/-- A cart line item: an order item for a course, with unit cost in cents. -/
structure CartItem where
  id : Nat
  course : Nat
  unitCost : Nat
  qty : Nat
  deriving Repr, DecidableEq

/-- A percentage-discount coupon scoped to one course, with a soft-delete
active flag. -/
structure Coupon where
  code : String
  course : Nat
  percentage_discount : Nat
  is_active : Bool
  deriving Repr, DecidableEq

/-- A single-use registration code bound to one course. -/
structure CourseRegistrationCode where
  code : String
  course : Nat
  deriving Repr, DecidableEq

/-- The discount codes visible to the cart endpoints. -/
structure CodeEnv where
  coupons : List Coupon
  reg_codes : List CourseRegistrationCode
  deriving Repr, DecidableEq

/-- An unpurchased order: its line items and whether a coupon redemption
has already been recorded against it. -/
structure Order where
  items : List CartItem
  coupon_redeemed : Bool
  deriving Repr, DecidableEq

/-- Modelled from the spec: the coupon discount in cents,
`round(cost * discount_percent / 100, 2)` with half-up rounding to cents
(the shoppingcart models module is not part of the sources here). -/
def discountAmount (cost pct : Nat) : Nat :=
  (cost * pct + 50) / 100

/-- Sum of the line costs of a list of items, in cents. -/
def itemsTotal (items : List CartItem) : Nat :=
  (items.map (fun i => i.unitCost * i.qty)).sum

/-- Derived order total: the sum of its active items, in cents. -/
def Order.total_cost (o : Order) : Nat :=
  itemsTotal o.items

/-- Apply a percentage coupon for a course to the first matching item:
its unit cost drops by the rounded discount. -/
def applyCouponToItems : List CartItem → Nat → Nat → List CartItem
  | [], _, _ => []
  | i :: rest, course, pct =>
    if i.course = course then
      { i with unitCost := i.unitCost - discountAmount i.unitCost pct } :: rest
    else
      i :: applyCouponToItems rest course pct

/-- Zero the cost of the first item of a course (registration-code path). -/
def zeroItemCost : List CartItem → Nat → List CartItem
  | [], _ => []
  | i :: rest, course =>
    if i.course = course then
      { i with unitCost := 0 } :: rest
    else
      i :: zeroItemCost rest course

/-- Response of the `use_code` endpoint: success (200), Conflict (400)
or NotFound (404), the latter two with their message. -/
inductive UseCodeResponse where
  | success
  | conflict (msg : String)
  | notFound (msg : String)
  deriving Repr, DecidableEq

/-- Whether a `use_code` response is a Conflict. -/
def UseCodeResponse.isConflict : UseCodeResponse → Bool
  | .conflict _ => true
  | _ => false

/-- HTTP status of a `use_code` response, per the error taxonomy
(Conflict is surfaced as 400, NotFound as 404). -/
def UseCodeResponse.status : UseCodeResponse → Nat
  | .success => 200
  | .conflict _ => 400
  | .notFound _ => 404

/-- Modelled from the spec: the `use_code` view (shoppingcart/views.py is
not part of the sources here; behaviour follows spec section 4.1 and,
where the spec and the repository tests disagree, the assertions of
lms/djangoapps/shoppingcart/tests/test_views.py — in particular the
quantity check on the registration-code path answers 404, per
test_cart_item_qty_greater_than_1_against_valid_reg_code).
Locates an active coupon or a registration code matching the submitted
code and scoped to a course present in the cart, and applies it. -/
def use_code (env : CodeEnv) (o : Order) (code : String) :
    UseCodeResponse × Order :=
  let activeCoupons := env.coupons.filter (fun c => c.code = code && c.is_active)
  match activeCoupons.find? (fun c => o.items.any (fun i => i.course = c.course)) with
  | some coupon =>
      if o.coupon_redeemed then
        (.conflict "Only one coupon redemption is allowed against an order", o)
      else
        (.success,
         { items := applyCouponToItems o.items coupon.course coupon.percentage_discount,
           coupon_redeemed := true })
  | none =>
      if activeCoupons.isEmpty then
        match env.reg_codes.find? (fun r => r.code = code) with
        | some rc =>
            match o.items.find? (fun i => i.course = rc.course) with
            | some item =>
                if 1 < item.qty then
                  (.notFound
                    "Cart item quantity should not be greater than 1 when applying activation code",
                   o)
                else
                  (.success, { o with items := zeroItemCost o.items rc.course })
            | none =>
                (.notFound "Code is not valid for any course in the shopping cart.", o)
        | none => (.notFound "Discount does not exist against code.", o)
      else
        (.notFound "Discount does not exist against code.", o)

/-- Response of the `register_code_redemption` endpoint. -/
inductive RedeemResponse where
  | confirm
  | activated
  | alreadyUsed
  | codeNotFound
  deriving Repr, DecidableEq

/-- Persistent redemption state: the RegistrationCodeRedemption records
(one entry per recorded redemption, by code) and the course enrollments
(user, course). -/
structure RedemptionState where
  redemptions : List String
  enrollments : List (String × Nat)
  deriving Repr, DecidableEq

/-- Modelled from the spec: the `register_code_redemption` view
(shoppingcart/views.py is not part of the sources here). A GET renders a
confirmation page; a POST records the redemption and enrolls the user.
A code that already has a redemption record reports already-used on both
methods; an unknown code is NotFound. -/
def register_code_redemption (env : CodeEnv) (is_post : Bool)
    (user : String) (code : String) (st : RedemptionState) :
    RedeemResponse × RedemptionState :=
  match env.reg_codes.find? (fun r => r.code = code) with
  | none => (.codeNotFound, st)
  | some rc =>
      if st.redemptions.contains code then
        (.alreadyUsed, st)
      else if is_post then
        (.activated,
         { redemptions := code :: st.redemptions,
           enrollments := (user, rc.course) :: st.enrollments })
      else
        (.confirm, st)

/-- Order type of a cart: business when some item has qty above one. -/
inductive OrderType where
  | personal
  | business
  deriving Repr, DecidableEq

/-- An unpurchased cart with its stored derived fields, as the item
endpoints maintain them. -/
structure Cart where
  items : List CartItem
  total_cost : Nat
  order_type : OrderType
  deriving Repr, DecidableEq

/-- The order type the items call for: business if any qty above 1. -/
def derivedType (items : List CartItem) : OrderType :=
  if items.any (fun i => 1 < i.qty) then .business else .personal

/-- Store the recomputed total cost and order type for an item list. -/
def recompute (items : List CartItem) : Cart :=
  { items := items, total_cost := itemsTotal items, order_type := derivedType items }

/-- Modelled from the spec: `add_course_to_cart` (shoppingcart/views.py
is not part of the sources here). Rejects a course already in the cart,
otherwise appends a qty-1 item and recomputes the stored fields. -/
def add_course_to_cart (cart : Cart) (item : CartItem) : Cart :=
  if cart.items.any (fun i => i.course = item.course) then cart
  else recompute (cart.items ++ [{ item with qty := 1 }])

/-- Modelled from the spec: `update_user_cart` (shoppingcart/views.py is
not part of the sources here). A quantity outside 1..1000 is rejected
(400) leaving the cart unchanged; otherwise the item quantity is set and
the stored fields recomputed. -/
def update_user_cart (cart : Cart) (item_id qty : Nat) : Cart :=
  if 1 ≤ qty ∧ qty ≤ 1000 then
    recompute (cart.items.map (fun i => if i.id = item_id then { i with qty := qty } else i))
  else cart

/-- Modelled from the spec: `remove_item` (shoppingcart/views.py is not
part of the sources here). Drops the item and recomputes the stored
fields. -/
def remove_item (cart : Cart) (item_id : Nat) : Cart :=
  recompute (cart.items.filter (fun i => i.id ≠ item_id))

/-- A cart mutation, for reasoning over arbitrary mutation sequences. -/
inductive CartOp where
  | add (item : CartItem)
  | update (item_id qty : Nat)
  | remove (item_id : Nat)
  deriving Repr, DecidableEq

/-- Apply one cart mutation. -/
def applyOp (cart : Cart) : CartOp → Cart
  | .add item => add_course_to_cart cart item
  | .update item_id qty => update_user_cart cart item_id qty
  | .remove item_id => remove_item cart item_id

/-- Apply a sequence of cart mutations left to right. -/
def applyOps (ops : List CartOp) (cart : Cart) : Cart :=
  ops.foldl applyOp cart

/-- The cart invariant of the spec: the stored total cost is the sum of
the active items, and the stored order type matches the items. -/
def CartInv (cart : Cart) : Prop :=
  cart.total_cost = itemsTotal cart.items ∧ cart.order_type = derivedType cart.items

instance (cart : Cart) : Decidable (CartInv cart) := by
  unfold CartInv
  infer_instance

/-- The rate-limit threshold on the redemption endpoints (≈30 attempts
per window). -/
def RATELIMIT_REQUESTS : Nat := 30

/-- The rate-limit window in seconds (a multi-minute reset window). -/
def RATELIMIT_WINDOW : Nat := 300

/-- Fixed-window counter state for one client: attempts recorded in the
current window and the time the window started. -/
structure RateLimitState where
  count : Nat
  window_start : Nat
  deriving Repr, DecidableEq

/-- A possibly rate-limited response: the inner response served
normally, or Forbidden (403). -/
inductive RateLimitedResponse where
  | served (inner : RedeemResponse)
  | forbidden
  deriving Repr, DecidableEq

/-- Modelled from the spec: the fixed-window rate limiter guarding the
registration-code redemption endpoints (the ratelimitbackend wiring is
not part of the sources here). When the window has elapsed the counter
resets; within the window, a request past the threshold is Forbidden,
anything earlier is served normally and counted. -/
def rate_limited_request (now : Nat) (st : RateLimitState)
    (inner : RedeemResponse) : RateLimitedResponse × RateLimitState :=
  let st := if st.window_start + RATELIMIT_WINDOW ≤ now then
      { count := 0, window_start := now }
    else st
  if st.count < RATELIMIT_REQUESTS then
    (.served inner, { st with count := st.count + 1 })
  else
    (.forbidden, st)

/-- The rate-limiter state after n identical requests at time t0,
starting from a fresh window opened at t0. -/
def requestIter (t0 : Nat) (inner : RedeemResponse) : Nat → RateLimitState
  | 0 => { count := 0, window_start := t0 }
  | n + 1 => (rate_limited_request t0 (requestIter t0 inner n) inner).snd

/-- Numeric value of a digit list, most significant first. -/
def digitsVal (cs : List Char) : Nat :=
  cs.foldl (fun a c => a * 10 + (c.toNat - 48)) 0

/-- Split a character list at the first dot, keeping what follows. -/
def splitDot : List Char → List Char × Option (List Char)
  | [] => ([], none)
  | c :: rest =>
    if c = '.' then ([], some rest)
    else
      let p := splitDot rest
      (c :: p.1, p.2)

/-- Modelled from the spec: parsing the donation amount string into an
exact decimal value (the donation view is not part of the sources here;
a non-numeric string yields no value). Accepts an optional minus sign,
digits, and at most one dot, with at least one digit overall. The value
is returned as a scaled integer (m, k) standing for m / 10^k. -/
def parseAmount (s : String) : Option (Int × Nat) :=
  let p : Bool × List Char :=
    match s.toList with
    | '-' :: rest => (true, rest)
    | cs => (false, cs)
  let cs := p.2
  let q := splitDot cs
  let ip := q.1
  match q.2 with
  | none =>
      if ip ≠ [] ∧ ip.all Char.isDigit then
        some ((if p.1 then -1 else 1) * (digitsVal ip : Int), 0)
      else none
  | some fp =>
      if (ip ++ fp) ≠ [] ∧ ip.all Char.isDigit ∧ fp.all Char.isDigit then
        some ((if p.1 then -1 else 1) *
          ((digitsVal ip : Int) * 10 ^ fp.length + (digitsVal fp : Int)),
          fp.length)
      else none

/-- The rational value denoted by a parsed scaled amount (m, k). -/
def amountValue (a : Int × Nat) : ℚ :=
  (a.1 : ℚ) / (10 : ℚ) ^ a.2

/-- Response of the donation endpoint with donations enabled; an
accepted amount is kept in parsed scaled form. -/
inductive DonationResponse where
  | accepted (amount : Int × Nat)
  | badRequest
  deriving Repr, DecidableEq

/-- HTTP status of a donation response. -/
def DonationResponse.status : DonationResponse → Nat
  | .accepted _ => 200
  | .badRequest => 400

/-- Modelled from the spec: the donation view with donations enabled
(the donation view is not part of the sources here). A missing or
non-numeric amount, or an amount below 0.01, is rejected with 400;
anything at or above one cent is accepted. The threshold test
m / 10^k < 1/100 is carried out as 100 * m < 10^k. -/
def donation (amount_param : Option String) : DonationResponse :=
  match amount_param with
  | none => .badRequest
  | some s =>
      match parseAmount s with
      | none => .badRequest
      | some v => if 100 * v.1 < 10 ^ v.2 then .badRequest else .accepted v

end Shoppingcart

namespace UserApi

/-- The profile-image settings the helpers read
(openedx/core/djangoapps/user_api/accounts/helpers.py). -/
structure ProfileImageSettings where
  PROFILE_IMAGE_SECRET_KEY : String
  PROFILE_IMAGE_DEFAULT_FILENAME : String
  deriving Repr, DecidableEq

/-- The slice of a Django user the helpers read: the username and the
profile flag `user.profile.has_profile_image`. -/
structure ApiUser where
  username : String
  has_profile_image : Bool
  deriving Repr, DecidableEq

/-- PROFILE_IMAGE_SIZES of accounts/helpers.py, as (label, size) pairs. -/
def PROFILE_IMAGE_SIZES : List (String × Nat) :=
  [("full", 500), ("large", 120), ("medium", 50), ("small", 30)]

/-- PROFILE_IMAGE_FORMAT of accounts/helpers.py. -/
def PROFILE_IMAGE_FORMAT : String := "jpg"

/-- get_profile_image_name of accounts/helpers.py: the MD5 hex digest of
the secret key concatenated with the username. hashlib.md5 is an
external collaborator, passed as `md5_hexdigest`. -/
def get_profile_image_name (md5_hexdigest : String → String)
    (st : ProfileImageSettings) (username : String) : String :=
  md5_hexdigest (st.PROFILE_IMAGE_SECRET_KEY ++ username)

/-- get_profile_image_filename of accounts/helpers.py:
`name_size.jpg`. -/
def get_profile_image_filename (name : String) (size : Nat) : String :=
  name ++ "_" ++ toString size ++ "." ++ PROFILE_IMAGE_FORMAT

/-- get_profile_image_url_for_user of accounts/helpers.py. The storage
backend URL resolution (`get_profile_image_storage().url`) is an
external collaborator, passed as `storage_url`. An unsupported size
raises ValueError, embedded as the error case. -/
def get_profile_image_url_for_user (md5_hexdigest storage_url : String → String)
    (st : ProfileImageSettings) (user : ApiUser) (size : Nat) :
    Except String String :=
  if size ∈ PROFILE_IMAGE_SIZES.map Prod.snd then
    let name :=
      if user.has_profile_image then get_profile_image_name md5_hexdigest st user.username
      else st.PROFILE_IMAGE_DEFAULT_FILENAME
    .ok (storage_url (get_profile_image_filename name size))
  else
    .error ("Unsupported profile image size: " ++ toString size)

/-- The POST data RegistrationView.post reads directly
(openedx/core/djangoapps/user_api/views.py). -/
structure RegistrationData where
  email : Option String
  username : Option String
  honor_code : Option String
  terms_of_service : Option String
  deriving Repr, DecidableEq

/-- A field error list as RegistrationView.post builds it: field name
paired with its user_message. -/
abbrev FieldErrors := List (String × String)

/-- Response of RegistrationView.post: 409 with per-field conflict
messages, 400 with per-field validation messages, or 200 success. -/
inductive RegistrationResponse where
  | conflictResp (errors : FieldErrors)
  | validationErr (errors : FieldErrors)
  | successResp
  deriving Repr, DecidableEq

/-- HTTP status of a RegistrationView.post response. -/
def RegistrationResponse.status : RegistrationResponse → Nat
  | .conflictResp _ => 409
  | .validationErr _ => 400
  | .successResp => 200

/-- The per-field conflict user message of RegistrationView.post. -/
def conflict_message (email username : Option String) (field : String) : String :=
  if field = "email" then
    "It looks like " ++ email.getD "None" ++
      " belongs to an existing account. Try again with a different email address."
  else
    "It looks like " ++ username.getD "None" ++
      " belongs to an existing account. Try again with a different username."

namespace RegistrationView

/-- RegistrationView.post of user_api/views.py. `check_account_exists`
(accounts/api.py) and `create_account_with_params` (student/views.py)
are external collaborators, passed as parameters; the returned Bool
records whether account creation was invoked. On a username or email
conflict the view answers 409 with one user_message per conflicting
field and never reaches account creation; otherwise it copies
honor_code to terms_of_service when the latter is absent and invokes
account creation, mapping a ValidationError to 400. -/
def post
    (check_account_exists : Option String → Option String → List String)
    (create_account_with_params : RegistrationData → Except FieldErrors Unit)
    (data : RegistrationData) : RegistrationResponse × Bool :=
  let conflicts := check_account_exists data.email data.username
  if conflicts.isEmpty then
    let data :=
      if data.honor_code.isSome && data.terms_of_service.isNone then
        { data with terms_of_service := data.honor_code }
      else data
    match create_account_with_params data with
    | .error errs => (.validationErr errs, true)
    | .ok _ => (.successResp, true)
  else
    (.conflictResp
      (conflicts.map (fun f => (f, conflict_message data.email data.username f))),
     false)

end RegistrationView

end UserApi

namespace Shoppingcart

lemma discountAmount_le (c pct : Nat) (h : pct ≤ 100) : discountAmount c pct ≤ c := by
  unfold discountAmount
  have h1 : c * pct + 50 ≤ c * 100 + 50 :=
    Nat.add_le_add_right (Nat.mul_le_mul_left c h) 50
  have h2 : (c * pct + 50) / 100 ≤ (c * 100 + 50) / 100 := Nat.div_le_div_right h1
  omega

lemma itemsTotal_cons (i : CartItem) (l : List CartItem) :
    itemsTotal (i :: l) = i.unitCost * i.qty + itemsTotal l := by
  simp [itemsTotal]

lemma applyCouponToItems_spec (c pct : Nat) (hp : pct ≤ 100) (l : List CartItem) :
    ∀ item : CartItem,
      l.find? (fun i => i.course = c) = some item →
      (applyCouponToItems l c pct).find? (fun i => i.course = c)
        = some { item with unitCost := item.unitCost - discountAmount item.unitCost pct } ∧
      discountAmount item.unitCost pct * item.qty ≤ itemsTotal l ∧
      itemsTotal (applyCouponToItems l c pct)
        = itemsTotal l - discountAmount item.unitCost pct * item.qty := by
  induction l with
  | nil => intro item h; simp at h
  | cons i rest ih =>
    intro item h
    by_cases hc : i.course = c
    · rw [List.find?_cons_of_pos _ (by simpa using hc)] at h
      obtain rfl : i = item := by simpa using h
      have hd := discountAmount_le i.unitCost pct hp
      have hdq : discountAmount i.unitCost pct * i.qty ≤ i.unitCost * i.qty :=
        Nat.mul_le_mul_right i.qty hd
      refine ⟨?_, ?_, ?_⟩
      · simp [applyCouponToItems, hc]
      · rw [itemsTotal_cons]; omega
      · simp only [applyCouponToItems, if_pos hc, itemsTotal_cons]
        rw [Nat.sub_mul]
        omega
    · rw [List.find?_cons_of_neg _ (by simpa using hc)] at h
      obtain ⟨h1, h2, h3⟩ := ih item h
      refine ⟨?_, ?_, ?_⟩
      · simp only [applyCouponToItems, if_neg hc]
        rw [List.find?_cons_of_neg _ (by simpa using hc)]
        exact h1
      · rw [itemsTotal_cons]; omega
      · simp only [applyCouponToItems, if_neg hc, itemsTotal_cons]
        omega

/-- Claim C1: redeeming an active percentage coupon with discount p via
use_code against a cart containing the coupon course succeeds, the
matching item unit_cost becomes c - round(c*p/100, 2) (half-up rounding
to cents, on cents: c - (c*p+50)/100), and the order total_cost equals
the discounted sum, i.e. drops by exactly the rounded discount times the
item quantity. -/
theorem use_code_percentage_coupon_discount
    (env : CodeEnv) (o : Order) (code : String) (coupon : Coupon) (item : CartItem)
    (hc : (env.coupons.filter (fun c => c.code = code && c.is_active)).find?
            (fun c => o.items.any (fun i => i.course = c.course)) = some coupon)
    (hr : o.coupon_redeemed = false)
    (hi : o.items.find? (fun i => i.course = coupon.course) = some item)
    (hp : coupon.percentage_discount ≤ 100) :
    (use_code env o code).1 = .success ∧
    (use_code env o code).2.items.find? (fun i => i.course = coupon.course)
      = some { item with
          unitCost := item.unitCost - discountAmount item.unitCost coupon.percentage_discount } ∧
    (use_code env o code).2.total_cost
      = o.total_cost - discountAmount item.unitCost coupon.percentage_discount * item.qty := by
  obtain ⟨h1, h2, h3⟩ :=
    applyCouponToItems_spec coupon.course coupon.percentage_discount hp o.items item hi
  simp only [use_code, hc, hr, Bool.false_eq_true, if_false, Order.total_cost]
  exact ⟨trivial, h1, h3⟩

/-- Witness for C1: a 4000-cent ($40) course with a 10% coupon yields
unit_cost 3600 cents ($36.00) and total_cost 3600 cents. -/
theorem use_code_percentage_coupon_discount_witness :
    (use_code ⟨[⟨"AS452", 1, 10, true⟩], []⟩ ⟨[⟨7, 1, 4000, 1⟩], false⟩ "AS452").1
      = UseCodeResponse.success ∧
    ((use_code ⟨[⟨"AS452", 1, 10, true⟩], []⟩ ⟨[⟨7, 1, 4000, 1⟩], false⟩ "AS452").2.items.find?
        (fun i => i.course = 1)) = some ⟨7, 1, 3600, 1⟩ ∧
    (use_code ⟨[⟨"AS452", 1, 10, true⟩], []⟩ ⟨[⟨7, 1, 4000, 1⟩], false⟩ "AS452").2.total_cost
      = 3600 := by
  have h := use_code_percentage_coupon_discount ⟨[⟨"AS452", 1, 10, true⟩], []⟩
    ⟨[⟨7, 1, 4000, 1⟩], false⟩ "AS452" ⟨"AS452", 1, 10, true⟩ ⟨7, 1, 4000, 1⟩
    (by decide) rfl (by decide) (by decide)
  exact ⟨h.1, h.2.1.trans (by decide), h.2.2.trans (by decide)⟩

/-- Claim C2: when the order already has a redeemed coupon, any further
coupon redemption via use_code (same code or a distinct valid active
code matching a cart course) fails with Conflict, surfaced as HTTP 400,
with the single-redemption message, and leaves the order (hence every
item cost) unchanged. -/
theorem use_code_second_coupon_conflict
    (env : CodeEnv) (o : Order) (code : String) (coupon : Coupon)
    (hc : (env.coupons.filter (fun c => c.code = code && c.is_active)).find?
            (fun c => o.items.any (fun i => i.course = c.course)) = some coupon)
    (hr : o.coupon_redeemed = true) :
    (use_code env o code).1
      = .conflict "Only one coupon redemption is allowed against an order" ∧
    (use_code env o code).1.status = 400 ∧
    (use_code env o code).2 = o := by
  simp [use_code, hc, hr, UseCodeResponse.status]

/-- Witness for C2: a second redemption attempt with a distinct active
coupon against an already-discounted order answers Conflict (400) and
leaves the order unchanged. -/
theorem use_code_second_coupon_conflict_witness :
    (use_code ⟨[⟨"abxyz", 1, 10, true⟩], []⟩ ⟨[⟨7, 1, 3600, 1⟩], true⟩ "abxyz").1
      = UseCodeResponse.conflict "Only one coupon redemption is allowed against an order" ∧
    (use_code ⟨[⟨"abxyz", 1, 10, true⟩], []⟩ ⟨[⟨7, 1, 3600, 1⟩], true⟩ "abxyz").1.status = 400 ∧
    (use_code ⟨[⟨"abxyz", 1, 10, true⟩], []⟩ ⟨[⟨7, 1, 3600, 1⟩], true⟩ "abxyz").2
      = ⟨[⟨7, 1, 3600, 1⟩], true⟩ :=
  use_code_second_coupon_conflict ⟨[⟨"abxyz", 1, 10, true⟩], []⟩ ⟨[⟨7, 1, 3600, 1⟩], true⟩
    "abxyz" ⟨"abxyz", 1, 10, true⟩ (by decide) rfl

/-- Counterexample to claim C3 as stated: a registration code targeting
a cart item of quantity 4 makes use_code answer NotFound (404) with the
quantity message — not a Conflict. -/
theorem use_code_reg_code_qty_counterexample :
    (use_code ⟨[], [⟨"REG1", 1⟩]⟩ ⟨[⟨7, 1, 4000, 4⟩], false⟩ "REG1").1
      = UseCodeResponse.notFound
          "Cart item quantity should not be greater than 1 when applying activation code" ∧
    (use_code ⟨[], [⟨"REG1", 1⟩]⟩ ⟨[⟨7, 1, 4000, 4⟩], false⟩ "REG1").1.status = 404 ∧
    (use_code ⟨[], [⟨"REG1", 1⟩]⟩ ⟨[⟨7, 1, 4000, 4⟩], false⟩ "REG1").1.isConflict = false := by
  decide

/-- Claim C3 amended: submitting a registration code (with no active
coupon under the same code) targeting a cart item whose quantity
exceeds 1 fails with NotFound (HTTP 404) carrying the quantity message,
leaving the order unchanged. -/
theorem use_code_reg_code_qty_not_found
    (env : CodeEnv) (o : Order) (code : String) (rc : CourseRegistrationCode)
    (item : CartItem)
    (hnc : env.coupons.filter (fun c => c.code = code && c.is_active) = [])
    (hrc : env.reg_codes.find? (fun r => r.code = code) = some rc)
    (hi : o.items.find? (fun i => i.course = rc.course) = some item)
    (hq : 1 < item.qty) :
    (use_code env o code).1
      = .notFound
          "Cart item quantity should not be greater than 1 when applying activation code" ∧
    (use_code env o code).1.status = 404 ∧
    (use_code env o code).2 = o := by
  simp [use_code, hnc, hrc, hi, hq, UseCodeResponse.status]

/-- Witness for the amended C3: the concrete quantity-4 cart. -/
theorem use_code_reg_code_qty_not_found_witness :
    (use_code ⟨[], [⟨"REG1", 1⟩]⟩ ⟨[⟨7, 1, 4000, 4⟩], false⟩ "REG1").1
      = UseCodeResponse.notFound
          "Cart item quantity should not be greater than 1 when applying activation code" ∧
    (use_code ⟨[], [⟨"REG1", 1⟩]⟩ ⟨[⟨7, 1, 4000, 4⟩], false⟩ "REG1").1.status = 404 ∧
    (use_code ⟨[], [⟨"REG1", 1⟩]⟩ ⟨[⟨7, 1, 4000, 4⟩], false⟩ "REG1").2
      = ⟨[⟨7, 1, 4000, 4⟩], false⟩ :=
  use_code_reg_code_qty_not_found ⟨[], [⟨"REG1", 1⟩]⟩ ⟨[⟨7, 1, 4000, 4⟩], false⟩ "REG1"
    ⟨"REG1", 1⟩ ⟨7, 1, 4000, 4⟩ (by decide) (by decide) (by decide) (by decide)

end Shoppingcart

namespace Shoppingcart

/-- Claim C4: registration codes are redeemed at most once. From any
state where every code has at most one redemption record, a redemption
request preserves that bound; and when a request actually activates the
code (records the redemption and enrolls), its redemption count is
exactly 1, exactly one enrollment was added, and every subsequent
attempt — GET or POST, any user — answers already-used and leaves the
state (count and enrollments) untouched. -/
theorem register_code_redemption_at_most_once
    (env : CodeEnv) (is_post : Bool) (user code : String) (st : RedemptionState)
    (hinv : ∀ c, st.redemptions.count c ≤ 1) :
    (∀ c, (register_code_redemption env is_post user code st).2.redemptions.count c ≤ 1) ∧
    ((register_code_redemption env is_post user code st).1 = .activated →
      (register_code_redemption env is_post user code st).2.redemptions.count code = 1 ∧
      (register_code_redemption env is_post user code st).2.enrollments.length
        = st.enrollments.length + 1 ∧
      ∀ (p2 : Bool) (u2 : String),
        register_code_redemption env p2 u2 code
            (register_code_redemption env is_post user code st).2
          = (.alreadyUsed, (register_code_redemption env is_post user code st).2)) := by
  cases hf : env.reg_codes.find? (fun r => r.code = code) with
  | none =>
      have he : register_code_redemption env is_post user code st = (.codeNotFound, st) := by
        simp [register_code_redemption, hf]
      rw [he]
      exact ⟨hinv, by simp⟩
  | some rc =>
      by_cases hcont : st.redemptions.contains code
      · have he : register_code_redemption env is_post user code st = (.alreadyUsed, st) := by
          simp only [register_code_redemption, hf]
          rw [if_pos hcont]
        rw [he]
        exact ⟨hinv, by simp⟩
      · have hcf : st.redemptions.contains code = false := by simpa using hcont
        have hz : st.redemptions.count code = 0 := by
          rw [List.count_eq_zero]
          simpa using hcf
        by_cases hp : is_post
        · have he : register_code_redemption env is_post user code st
              = (.activated,
                 ⟨code :: st.redemptions, (user, rc.course) :: st.enrollments⟩) := by
            simp only [register_code_redemption, hf]
            rw [if_neg (by rw [hcf]; exact Bool.false_ne_true), if_pos hp]
          rw [he]
          refine ⟨?_, ?_⟩
          · intro c
            by_cases hc : code = c
            · subst hc
              simp [List.count_cons, hz]
            · have hbc : (code == c) = false := by simpa using hc
              simp only [List.count_cons, hbc, if_neg, Bool.false_eq_true, ite_false]
              simpa using hinv c
          · intro _
            refine ⟨?_, by simp, ?_⟩
            · simp [List.count_cons, hz]
            · intro p2 u2
              simp [register_code_redemption, hf]
        · have he : register_code_redemption env is_post user code st = (.confirm, st) := by
            simp only [register_code_redemption, hf]
            rw [if_neg (by rw [hcf]; exact Bool.false_ne_true), if_neg hp]
          rw [he]
          exact ⟨hinv, by simp⟩

/-- Witness for C4: one registration code, fresh state; the POST
activates it and the bound and already-used follow-up hold. -/
theorem register_code_redemption_at_most_once_witness :
    (∀ c, (register_code_redemption ⟨[], [⟨"REG1", 1⟩]⟩ true "bob" "REG1"
        ⟨[], []⟩).2.redemptions.count c ≤ 1) ∧
    ((register_code_redemption ⟨[], [⟨"REG1", 1⟩]⟩ true "bob" "REG1" ⟨[], []⟩).1
        = RedeemResponse.activated →
      (register_code_redemption ⟨[], [⟨"REG1", 1⟩]⟩ true "bob" "REG1"
          ⟨[], []⟩).2.redemptions.count "REG1" = 1 ∧
      (register_code_redemption ⟨[], [⟨"REG1", 1⟩]⟩ true "bob" "REG1"
          ⟨[], []⟩).2.enrollments.length = ([] : List (String × Nat)).length + 1 ∧
      ∀ (p2 : Bool) (u2 : String),
        register_code_redemption ⟨[], [⟨"REG1", 1⟩]⟩ p2 u2 "REG1"
            (register_code_redemption ⟨[], [⟨"REG1", 1⟩]⟩ true "bob" "REG1" ⟨[], []⟩).2
          = (RedeemResponse.alreadyUsed,
             (register_code_redemption ⟨[], [⟨"REG1", 1⟩]⟩ true "bob" "REG1" ⟨[], []⟩).2)) :=
  register_code_redemption_at_most_once ⟨[], [⟨"REG1", 1⟩]⟩ true "bob" "REG1" ⟨[], []⟩
    (fun c => by simp)

lemma cartInv_recompute (items : List CartItem) : CartInv (recompute items) :=
  ⟨rfl, rfl⟩

/-- Claim C5: starting from any cart satisfying the stored-field
invariant, any sequence of item mutations (add, quantity update,
removal) keeps total_cost equal to the sum over current items of
unit_cost times qty, and keeps order_type business exactly when some
item has qty above 1 (personal otherwise, including after removing the
last such item or emptying the cart). -/
theorem cart_mutations_keep_invariant
    (ops : List CartOp) (cart : Cart) (h : CartInv cart) :
    CartInv (applyOps ops cart) ∧
    ((applyOps ops cart).order_type = OrderType.business ↔
      ∃ i ∈ (applyOps ops cart).items, 1 < i.qty) := by
  have hmain : CartInv (applyOps ops cart) := by
    induction ops generalizing cart with
    | nil => exact h
    | cons op rest ih =>
        refine ih (applyOp cart op) ?_
        cases op with
        | add item =>
            simp only [applyOp, add_course_to_cart]
            split
            · exact h
            · exact cartInv_recompute _
        | update item_id qty =>
            simp only [applyOp, update_user_cart]
            split
            · exact cartInv_recompute _
            · exact h
        | remove item_id =>
            exact cartInv_recompute _
  refine ⟨hmain, ?_⟩
  rw [hmain.2]
  unfold derivedType
  by_cases ha : (applyOps ops cart).items.any (fun i => 1 < i.qty)
  · rw [if_pos ha]
    simpa [List.any_eq_true] using ha
  · rw [if_neg ha]
    simp only [List.any_eq_true, decide_eq_true_eq] at ha
    simp [ha]

/-- Witness for C5: add two courses, raise one to qty 5 (business),
then remove it — the invariant holds and the cart is back to
personal with the correct total. -/
theorem cart_mutations_keep_invariant_witness :
    CartInv (applyOps [.add ⟨1, 10, 4000, 1⟩, .add ⟨2, 11, 5400, 1⟩, .update 2 5, .remove 2]
      (recompute [])) ∧
    ((applyOps [.add ⟨1, 10, 4000, 1⟩, .add ⟨2, 11, 5400, 1⟩, .update 2 5, .remove 2]
        (recompute [])).order_type = OrderType.business ↔
      ∃ i ∈ (applyOps [.add ⟨1, 10, 4000, 1⟩, .add ⟨2, 11, 5400, 1⟩, .update 2 5, .remove 2]
        (recompute [])).items, 1 < i.qty) :=
  cart_mutations_keep_invariant
    [.add ⟨1, 10, 4000, 1⟩, .add ⟨2, 11, 5400, 1⟩, .update 2 5, .remove 2]
    (recompute []) (by decide)

lemma requestIter_le (t0 : Nat) (inner : RedeemResponse) :
    ∀ n, n ≤ RATELIMIT_REQUESTS → requestIter t0 inner n = ⟨n, t0⟩ := by
  intro n
  induction n with
  | zero => intro _; rfl
  | succ k ih =>
      intro hk
      have hk' : k ≤ RATELIMIT_REQUESTS := Nat.le_of_succ_le hk
      have hw : ¬ (t0 + RATELIMIT_WINDOW ≤ t0) := by
        unfold RATELIMIT_WINDOW
        omega
      have hlt : k < RATELIMIT_REQUESTS := hk
      simp only [requestIter, ih hk', rate_limited_request]
      rw [if_neg hw, if_pos hlt]

/-- Claim C6: the redemption endpoints behind the fixed-window rate
limiter serve the first 30 attempts of a window normally (whatever the
inner response, e.g. NotFound for an unknown code), answer Forbidden on
the 31st attempt of the same window, and serve normally again at any
time past the window. -/
theorem rate_limit_fixed_window
    (t0 t : Nat) (inner : RedeemResponse) (ht : t0 + RATELIMIT_WINDOW ≤ t) :
    (∀ n, n < RATELIMIT_REQUESTS →
      (rate_limited_request t0 (requestIter t0 inner n) inner).1
        = RateLimitedResponse.served inner) ∧
    (rate_limited_request t0 (requestIter t0 inner RATELIMIT_REQUESTS) inner).1
      = RateLimitedResponse.forbidden ∧
    (rate_limited_request t (requestIter t0 inner RATELIMIT_REQUESTS) inner).1
      = RateLimitedResponse.served inner := by
  have hw : ¬ (t0 + RATELIMIT_WINDOW ≤ t0) := by
    unfold RATELIMIT_WINDOW
    omega
  refine ⟨?_, ?_, ?_⟩
  · intro n hn
    rw [requestIter_le t0 inner n (Nat.le_of_lt hn)]
    simp only [rate_limited_request]
    rw [if_neg hw, if_pos hn]
  · rw [requestIter_le t0 inner _ le_rfl]
    simp only [rate_limited_request]
    rw [if_neg hw, if_neg (lt_irrefl RATELIMIT_REQUESTS)]
  · rw [requestIter_le t0 inner _ le_rfl]
    simp only [rate_limited_request]
    rw [if_pos ht]
    have h0 : ({ count := 0, window_start := t } : RateLimitState).count
        < RATELIMIT_REQUESTS := by
      simp [RATELIMIT_REQUESTS]
    rw [if_pos h0]

/-- Witness for C6: a fresh window opened at time 0; attempt 1 is
served, attempt 31 is Forbidden, and a request at time 300 (window
elapsed) is served again. -/
theorem rate_limit_fixed_window_witness :
    (rate_limited_request 0 (requestIter 0 RedeemResponse.codeNotFound 0)
        RedeemResponse.codeNotFound).1
      = RateLimitedResponse.served RedeemResponse.codeNotFound ∧
    (rate_limited_request 0 (requestIter 0 RedeemResponse.codeNotFound RATELIMIT_REQUESTS)
        RedeemResponse.codeNotFound).1 = RateLimitedResponse.forbidden ∧
    (rate_limited_request 300 (requestIter 0 RedeemResponse.codeNotFound RATELIMIT_REQUESTS)
        RedeemResponse.codeNotFound).1
      = RateLimitedResponse.served RedeemResponse.codeNotFound := by
  have h := rate_limit_fixed_window 0 300 RedeemResponse.codeNotFound (by decide)
  exact ⟨h.1 0 (by decide), h.2.1, h.2.2⟩

end Shoppingcart

namespace Shoppingcart

lemma donation_threshold (v : Int × Nat) :
    100 * v.1 < 10 ^ v.2 ↔ amountValue v < 1 / 100 := by
  unfold amountValue
  rw [div_lt_div_iff₀ (by positivity) (by norm_num : (0:ℚ) < 100), one_mul]
  have hcast : ((v.1 : ℚ) * 100 < (10 : ℚ) ^ v.2) ↔ (v.1 * 100 < (10 ^ v.2 : Int)) := by
    constructor
    · intro h
      exact_mod_cast h
    · intro h
      exact_mod_cast h
  rw [hcast]
  constructor
  · intro h
    linarith
  · intro h
    linarith

/-- Claim C7: with donations enabled, a POST whose amount is missing or
non-numeric, or whose parsed value is below 0.01 (zero, negative, or
sub-cent such as 0.001), is rejected with 400; an amount parsing to at
least one cent is accepted, and 0.01 exactly parses to value 1/100 and
is accepted. -/
theorem donation_validation :
    donation none = DonationResponse.badRequest ∧
    (∀ s, parseAmount s = none → donation (some s) = DonationResponse.badRequest) ∧
    (∀ s v, parseAmount s = some v → amountValue v < 1 / 100 →
      donation (some s) = DonationResponse.badRequest) ∧
    (∀ s v, parseAmount s = some v → 1 / 100 ≤ amountValue v →
      donation (some s) = DonationResponse.accepted v) ∧
    (donation none).status = 400 ∧
    donation (some "0.01") = DonationResponse.accepted (1, 2) ∧
    amountValue (1, 2) = 1 / 100 := by
  refine ⟨rfl, ?_, ?_, ?_, rfl, by decide, by norm_num [amountValue]⟩
  · intro s h
    simp [donation, h]
  · intro s v h hlt
    simp only [donation, h]
    rw [if_pos ((donation_threshold v).mpr hlt)]
  · intro s v h hge
    simp only [donation, h]
    rw [if_neg (fun hc => (not_lt.mpr hge) ((donation_threshold v).mp hc))]

/-- Witness for C7: the bad inputs of the repository test (non-numeric,
sub-cent) are rejected and 0.01 is accepted. -/
theorem donation_validation_witness :
    donation (some "abcd") = DonationResponse.badRequest ∧
    donation (some "0.001") = DonationResponse.badRequest ∧
    donation (some "0.01") = DonationResponse.accepted (1, 2) := by
  have h := donation_validation
  exact ⟨h.2.1 "abcd" (by decide),
         h.2.2.1 "0.001" (1, 3) (by decide) (by norm_num [amountValue]),
         h.2.2.2.2.2.1⟩

/-- Claim C8: when no active code matches a course in the cart — the
code does not exist, the coupon exists but is inactive, or the matching
course is absent from the cart, and likewise no registration code under
that code targets a cart course — use_code fails with NotFound
(HTTP 404) carrying an explanatory message, leaving the order
unchanged. -/
theorem use_code_not_found_cases
    (env : CodeEnv) (o : Order) (code : String)
    (hc : (env.coupons.filter (fun c => c.code = code && c.is_active)).find?
            (fun c => o.items.any (fun i => i.course = c.course)) = none)
    (hr : ∀ rc, env.reg_codes.find? (fun r => r.code = code) = some rc →
            o.items.find? (fun i => i.course = rc.course) = none) :
    ∃ msg, use_code env o code = (.notFound msg, o) ∧
      (UseCodeResponse.notFound msg).status = 404 := by
  simp only [use_code, hc]
  by_cases he : (env.coupons.filter (fun c => c.code = code && c.is_active)).isEmpty
  · rw [if_pos he]
    cases hf : env.reg_codes.find? (fun r => r.code = code) with
    | none => exact ⟨_, rfl, rfl⟩
    | some rc =>
        have hri := hr rc hf
        simp only [hri]
        exact ⟨_, rfl, rfl⟩
  · rw [if_neg he]
    exact ⟨_, rfl, rfl⟩

/-- Witness for C8: an inactive coupon under the submitted code and no
registration code yields NotFound with the order unchanged. -/
theorem use_code_not_found_cases_witness :
    ∃ msg, use_code ⟨[⟨"AS452", 1, 10, false⟩], []⟩ ⟨[⟨7, 1, 4000, 1⟩], false⟩ "AS452"
        = (.notFound msg, ⟨[⟨7, 1, 4000, 1⟩], false⟩) ∧
      (UseCodeResponse.notFound msg).status = 404 :=
  use_code_not_found_cases ⟨[⟨"AS452", 1, 10, false⟩], []⟩ ⟨[⟨7, 1, 4000, 1⟩], false⟩ "AS452"
    (by decide) (fun rc h => Option.noConfusion h)

end Shoppingcart

namespace UserApi

/-- Claim C9: get_profile_image_url_for_user raises ValueError exactly
when the requested size is not one of 30, 50, 120, 500; for a supported
size it returns the storage URL of get_profile_image_filename applied
to the MD5-derived name (secret key concatenated with the username)
when the user has a profile image, and to the configured default
filename otherwise — a filename of the form name_size.jpg. -/
theorem get_profile_image_url_for_user_spec
    (md5_hexdigest storage_url : String → String) (st : ProfileImageSettings)
    (user : ApiUser) (size : Nat) :
    ((∃ e, get_profile_image_url_for_user md5_hexdigest storage_url st user size
        = Except.error e) ↔ size ∉ ([30, 50, 120, 500] : List Nat)) ∧
    (size ∈ ([30, 50, 120, 500] : List Nat) →
      get_profile_image_url_for_user md5_hexdigest storage_url st user size
        = Except.ok (storage_url (get_profile_image_filename
            (if user.has_profile_image then
              md5_hexdigest (st.PROFILE_IMAGE_SECRET_KEY ++ user.username)
             else st.PROFILE_IMAGE_DEFAULT_FILENAME) size))) ∧
    (∀ name, get_profile_image_filename name size
        = name ++ "_" ++ toString size ++ ".jpg") := by
  have hmem : size ∈ PROFILE_IMAGE_SIZES.map Prod.snd ↔
      size ∈ ([30, 50, 120, 500] : List Nat) := by
    simp [PROFILE_IMAGE_SIZES]
    tauto
  refine ⟨⟨?_, ?_⟩, ?_, ?_⟩
  · rintro ⟨e, he⟩ hin
    rw [get_profile_image_url_for_user, if_pos (hmem.mpr hin)] at he
    exact Except.noConfusion he
  · intro hnot
    exact ⟨"Unsupported profile image size: " ++ toString size, by
      rw [get_profile_image_url_for_user, if_neg (fun hh => hnot (hmem.mp hh))]⟩
  · intro hin
    rw [get_profile_image_url_for_user, if_pos (hmem.mpr hin)]
    rw [get_profile_image_name]
  · intro name
    rw [get_profile_image_filename, PROFILE_IMAGE_FORMAT, String.append_assoc]
    rfl

/-- Witness for C9: size 50 with a profile image resolves to the hashed
name, and size 12 is the ValueError case. -/
theorem get_profile_image_url_for_user_spec_witness :
    get_profile_image_url_for_user (fun s => "h" ++ s) (fun f => "/static/" ++ f)
        ⟨"sek", "deflt.png"⟩ ⟨"bob", true⟩ 50
      = Except.ok ("/static/" ++ get_profile_image_filename ("h" ++ ("sek" ++ "bob")) 50) ∧
    (∃ e, get_profile_image_url_for_user (fun s => "h" ++ s) (fun f => "/static/" ++ f)
        ⟨"sek", "deflt.png"⟩ ⟨"bob", true⟩ 12 = Except.error e) := by
  have h50 := get_profile_image_url_for_user_spec (fun s => "h" ++ s)
    (fun f => "/static/" ++ f) ⟨"sek", "deflt.png"⟩ ⟨"bob", true⟩ 50
  have h12 := get_profile_image_url_for_user_spec (fun s => "h" ++ s)
    (fun f => "/static/" ++ f) ⟨"sek", "deflt.png"⟩ ⟨"bob", true⟩ 12
  exact ⟨(h50.2.1 (by decide)).trans (by rfl), h12.1.mpr (by decide)⟩

/-- Claim C10: RegistrationView.post answers 409 with one user_message
per conflicting field and never invokes account creation when the email
or username already belongs to an account (check_account_exists returns
a non-empty conflict list); account creation is invoked exactly when
there is no conflict. -/
theorem registration_post_conflicts
    (check_account_exists : Option String → Option String → List String)
    (create_account_with_params : RegistrationData → Except FieldErrors Unit)
    (data : RegistrationData) :
    (check_account_exists data.email data.username ≠ [] →
      (RegistrationView.post check_account_exists create_account_with_params data).1
        = .conflictResp ((check_account_exists data.email data.username).map
            (fun f => (f, conflict_message data.email data.username f))) ∧
      (RegistrationView.post check_account_exists create_account_with_params data).1.status
        = 409 ∧
      (RegistrationView.post check_account_exists create_account_with_params data).2
        = false) ∧
    (check_account_exists data.email data.username = [] →
      (RegistrationView.post check_account_exists create_account_with_params data).2
        = true) := by
  constructor
  · intro hne
    have hie : (check_account_exists data.email data.username).isEmpty = false := by
      cases hcl : check_account_exists data.email data.username with
      | nil => exact absurd hcl hne
      | cons a l => rfl
    simp only [RegistrationView.post, hie, Bool.false_eq_true, if_false]
    exact ⟨trivial, rfl, trivial⟩
  · intro heq
    simp only [RegistrationView.post, heq, List.isEmpty_nil, if_true]
    split <;> rfl

/-- Witness for C10: a conflicting email answers 409 without account
creation; without conflicts the account creation backend is invoked. -/
theorem registration_post_conflicts_witness :
    ((RegistrationView.post (fun _ _ => ["email"]) (fun _ => Except.ok ())
        ⟨some "a@b.c", some "bob", none, none⟩).1
      = RegistrationResponse.conflictResp
          (["email"].map (fun f =>
            (f, conflict_message (some "a@b.c") (some "bob") f))) ∧
     (RegistrationView.post (fun _ _ => ["email"]) (fun _ => Except.ok ())
        ⟨some "a@b.c", some "bob", none, none⟩).1.status = 409 ∧
     (RegistrationView.post (fun _ _ => ["email"]) (fun _ => Except.ok ())
        ⟨some "a@b.c", some "bob", none, none⟩).2 = false) ∧
    (RegistrationView.post (fun _ _ => []) (fun _ => Except.ok ())
        ⟨some "a@b.c", some "bob", none, none⟩).2 = true := by
  have h1 := registration_post_conflicts (fun _ _ => ["email"]) (fun _ => Except.ok ())
    ⟨some "a@b.c", some "bob", none, none⟩
  have h2 := registration_post_conflicts (fun _ _ => []) (fun _ => Except.ok ())
    ⟨some "a@b.c", some "bob", none, none⟩
  exact ⟨h1.1 (by decide), h2.2 rfl⟩

end UserApi
